import Mathlib

/-!
Verification of the authentication and role-based access control core of the
intersect-fhir-api repository: a shallow embedding in Lean 4 of
`app/routers/auth.py`, `app/middleware/permissions.py`,
`app/services/jwt_service.py`, `app/services/auth_service.py`, and the data
model of `app/models/user.py` and `app/models/enums.py`, followed by theorems
settling the spec claims about them.

Conventions of the embedding:
- FastAPI `HTTPException(status_code, detail)` becomes the `HTTPError`
  structure; a handler that can raise becomes a function into
  `Except HTTPError α`.
- The Mongo `users` collection becomes a `List UserDoc`; `find_one` on a
  field becomes `List.find?` on that field.  A Python dict field that may be
  absent (`user.get("is_active", True)`) becomes an `Option Bool` read with
  `Option.getD`.
- Wall-clock time is an explicit `now : Nat` parameter (seconds); the
  configured token lifetime is `expire_minutes : Nat`
  (`settings.access_token_expire_minutes`).
- A JWT string is embedded as `TokenString`: either structurally malformed,
  or a payload together with a signature value.  The external `python-jose`
  library is modelled by `jose_decode`, faithful to its documented behaviour:
  verify the signature against the server secret first, then reject an
  expired `exp` claim, with distinct error messages for the three failure
  kinds ("Signature has expired.", "Signature verification failed.",
  "Not enough segments").
-/

deriving instance DecidableEq for Except

/-- FastAPI HTTPException: a status code and a detail message. -/
structure HTTPError where
  status : Nat
  detail : String
deriving DecidableEq, Repr

/-- `app/models/enums.py` `UserRole`: the closed role enumeration. -/
inductive UserRole where
  | admin
  | practitioner
  | nurse
  | scheduler
  | finance
deriving DecidableEq, Repr

/-- The `.value` of a role member, as used throughout the Python code. -/
def UserRole.value : UserRole → String
  | .admin => "admin"
  | .practitioner => "practitioner"
  | .nurse => "nurse"
  | .scheduler => "scheduler"
  | .finance => "finance"

/-- A stored user document, as inserted by `register` in
`app/routers/auth.py` (the dict with keys `_id`, `email`, `password_hash`,
`first_name`, `last_name`, `role`, `created_at`, `is_active`).  `is_active` is
an `Option Bool` because documents already in the store may lack the field,
and the code reads it with `user.get("is_active", True)`. -/
structure UserDoc where
  id : String
  email : String
  password_hash : String
  first_name : String
  last_name : String
  role : String
  created_at : Nat
  is_active : Option Bool
deriving DecidableEq, Repr

/-- `app/models/user.py` `UserCreate`: the registration request body. -/
structure UserCreate where
  email : String
  first_name : String
  last_name : String
  role : UserRole
  password : String
deriving DecidableEq, Repr

/-- The user dict with `password_hash` removed, as returned by `register`
and by the `/me` endpoint. -/
structure UserProfile where
  id : String
  email : String
  first_name : String
  last_name : String
  role : String
  created_at : Nat
  is_active : Option Bool
deriving DecidableEq, Repr

/-- Drop `password_hash` from a stored user document. -/
def UserDoc.profile (u : UserDoc) : UserProfile :=
  { id := u.id, email := u.email, first_name := u.first_name,
    last_name := u.last_name, role := u.role, created_at := u.created_at,
    is_active := u.is_active }

namespace PasswordService

/-- Modelled from the spec: `app/services/password_service.py` is imported by
`app/routers/auth.py` (`hash_password`, `verify_password`) but the file is
absent from the sources.  Spec section 4.1: `hash(plaintext) -> hash_string`
using a salted one-way function.  The model is a deterministic injective
encoding (salting is irrelevant to the claims proved here). -/
def hash_password (plaintext : String) : String :=
  String.append "$bcrypt-model$" plaintext

/-- Modelled from the spec: `verify(plaintext, hash_string) -> bool`,
comparison of the recomputed hash against the stored hash. -/
def verify_password (plaintext hashed : String) : Bool :=
  hash_password plaintext == hashed

end PasswordService

namespace JwtService

/-- The JWT claim set built by `create_access_token`: the caller-supplied
`data` dict (keys `user_id`, `email`, `role`, each possibly absent in an
arbitrary token) plus the `exp` timestamp added before encoding. -/
structure Payload where
  user_id : Option String
  email : Option String
  role : Option String
  exp : Nat
deriving DecidableEq, Repr

/-- A token string: either not parseable as a JWT at all, or a payload
carried with a signature value. -/
inductive TokenString where
  | malformed (raw : String)
  | signed (payload : Payload) (sig : Nat)
deriving DecidableEq, Repr

/-- A concrete executable mixing of a string into a number, used to model
the HMAC-SHA256 signature computed by python-jose with the server secret.
Only two facts about it are used: it is a function of the secret and the
payload, and verification compares the carried signature against it. -/
def strVal (s : String) : Nat :=
  s.data.foldl (fun a c => a * 257 + (c.toNat + 1)) 7

def optVal : Option String → Nat
  | none => 0
  | some s => strVal s + 1

/-- Model of the signature python-jose computes over the encoded payload
with the server-held secret key (`settings.secret_key`, HS256). -/
def signature (secret : String) (p : Payload) : Nat :=
  strVal secret * 31 + optVal p.user_id * 37 + optVal p.email * 41 +
    optVal p.role * 43 + p.exp * 47

/-- The three distinct failure kinds of `jose.jwt.decode`, with their
library error messages (surfaced through `str(e)` by the repository code). -/
inductive JWTFailure where
  | expiredSignature
  | signatureVerificationFailed
  | notEnoughSegments
deriving DecidableEq, Repr

def JWTFailure.message : JWTFailure → String
  | .expiredSignature => "Signature has expired."
  | .signatureVerificationFailed => "Signature verification failed."
  | .notEnoughSegments => "Not enough segments"

/-- Model of `jose.jwt.decode(token, secret, algorithms=[...])`: a malformed
string fails to parse; otherwise the signature is verified against the
secret, and then the `exp` claim is validated (expired iff `exp < now`,
leeway 0). -/
def jose_decode (secret : String) (now : Nat) :
    TokenString → Except JWTFailure Payload
  | .malformed _ => .error .notEnoughSegments
  | .signed p s =>
    if s = signature secret p then
      if p.exp < now then .error .expiredSignature
      else .ok p
    else .error .signatureVerificationFailed

/-- `create_access_token` in `app/services/jwt_service.py`, as called by
`login` (no custom `expires_delta`): copy the data, set
`exp = now + expire_minutes` minutes, sign with the secret. -/
def create_access_token (secret : String) (now expire_minutes : Nat)
    (user_id email role : String) : TokenString :=
  let p : Payload :=
    { user_id := some user_id, email := some email, role := some role,
      exp := now + expire_minutes * 60 }
  .signed p (signature secret p)

/-- `decode_access_token` in `app/services/jwt_service.py`: decode via jose;
any `JWTError e` becomes `HTTPException(401, "Could not validate
credentials: " + str(e))`. -/
def decode_access_token (secret : String) (now : Nat) (t : TokenString) :
    Except HTTPError Payload :=
  match jose_decode secret now t with
  | .ok payload => .ok payload
  | .error e =>
    .error { status := 401,
             detail := String.append "Could not validate credentials: " e.message }

/-- The identity triple `get_token_data` extracts. -/
structure TokenData where
  user_id : String
  email : String
  role : String
deriving DecidableEq, Repr

/-- `get_token_data` in `app/services/jwt_service.py`: decode, then require
the `user_id`, `email` and `role` claims all present, else
`HTTPException(401, "Invalid token payload")`. -/
def get_token_data (secret : String) (now : Nat) (t : TokenString) :
    Except HTTPError TokenData :=
  match decode_access_token secret now t with
  | .error e => .error e
  | .ok payload =>
    match payload.user_id, payload.email, payload.role with
    | some u, some e, some r => .ok { user_id := u, email := e, role := r }
    | _, _, _ => .error { status := 401, detail := "Invalid token payload" }

end JwtService

namespace AuthRouter

open JwtService PasswordService

/-- `db.users.find_one({"email": email})`. -/
def find_by_email (db : List UserDoc) (email : String) : Option UserDoc :=
  db.find? (fun u => u.email == email)

/-- `db.users.find_one({"_id": uid})`. -/
def find_by_id (db : List UserDoc) (uid : String) : Option UserDoc :=
  db.find? (fun u => u.id == uid)

/-- The user document `register` builds and inserts: `_id = email`, the
hashed password, `is_active = True`. -/
def new_user_doc (now : Nat) (u : UserCreate) : UserDoc :=
  { id := u.email, email := u.email,
    password_hash := hash_password u.password,
    first_name := u.first_name, last_name := u.last_name,
    role := u.role.value, created_at := now, is_active := some true }

/-- `register` in `app/routers/auth.py`: reject an already-registered email
with `HTTPException(400, "Email already registered")`; otherwise hash the
password, insert the user document and return it without the password hash.
The state-passing result carries the updated store. -/
def register (db : List UserDoc) (now : Nat) (u : UserCreate) :
    Except HTTPError (UserProfile × List UserDoc) :=
  match find_by_email db u.email with
  | some _ => .error { status := 400, detail := "Email already registered" }
  | none => .ok ((new_user_doc now u).profile, db ++ [new_user_doc now u])

/-- The user dict embedded in a successful login response (explicitly
rebuilt field by field in the source, `is_active` read with default True). -/
structure UserResponse where
  id : String
  email : String
  first_name : String
  last_name : String
  role : String
  created_at : Nat
  is_active : Bool
deriving DecidableEq, Repr

/-- The body returned by a successful `login`. -/
structure TokenResponse where
  access_token : TokenString
  token_type : String
  user : UserResponse
deriving DecidableEq, Repr

/-- `login` in `app/routers/auth.py`: find the user by email (missing user
gives 401 "Invalid email or password"), verify the password (mismatch gives
the same 401), reject an inactive account with 403 "User account is
inactive", else mint a token over `{user_id, email, role}` and return it
with the user response. -/
def login (db : List UserDoc) (secret : String) (now expire_minutes : Nat)
    (email password : String) : Except HTTPError TokenResponse :=
  match find_by_email db email with
  | none => .error { status := 401, detail := "Invalid email or password" }
  | some user =>
    if verify_password password user.password_hash = false then
      .error { status := 401, detail := "Invalid email or password" }
    else if user.is_active.getD true = false then
      .error { status := 403, detail := "User account is inactive" }
    else
      .ok { access_token :=
              create_access_token secret now expire_minutes user.id
                user.email user.role,
            token_type := "bearer",
            user := { id := user.id, email := user.email,
                      first_name := user.first_name,
                      last_name := user.last_name, role := user.role,
                      created_at := user.created_at,
                      is_active := user.is_active.getD true } }

/-- `get_current_user` in `app/routers/auth.py`: extract the token data,
look the user up live by `_id` in the store (missing gives
401 "User not found"), reject an inactive account with
403 "User account is inactive", else return the stored user. -/
def get_current_user (db : List UserDoc) (secret : String) (now : Nat)
    (t : TokenString) : Except HTTPError UserDoc :=
  match get_token_data secret now t with
  | .error e => .error e
  | .ok td =>
    match find_by_id db td.user_id with
    | none => .error { status := 401, detail := "User not found" }
    | some user =>
      if user.is_active.getD true = false then
        .error { status := 403, detail := "User account is inactive" }
      else .ok user

/-- `get_current_user_profile` (the `/me` endpoint): the current user with
`password_hash` removed. -/
def get_current_user_profile (db : List UserDoc) (secret : String)
    (now : Nat) (t : TokenString) : Except HTTPError UserProfile :=
  match get_current_user db secret now t with
  | .error e => .error e
  | .ok user => .ok user.profile

end AuthRouter

namespace Permissions

open AuthRouter

/-- `require_role` in `app/middleware/permissions.py`: resolve the current
user, then deny with 403 unless the user role string equals the required
role value. -/
def require_role (required_role : UserRole) (db : List UserDoc)
    (secret : String) (now : Nat) (t : JwtService.TokenString) :
    Except HTTPError UserDoc :=
  match get_current_user db secret now t with
  | .error e => .error e
  | .ok current_user =>
    if current_user.role ≠ required_role.value then
      .error { status := 403,
               detail := String.append "Access denied. Required role: "
                 required_role.value }
    else .ok current_user

/-- `require_any_role` in `app/middleware/permissions.py`: resolve the
current user, then deny with 403 unless the user role string is among the
values of the allowed roles. -/
def require_any_role (allowed_roles : List UserRole) (db : List UserDoc)
    (secret : String) (now : Nat) (t : JwtService.TokenString) :
    Except HTTPError UserDoc :=
  match get_current_user db secret now t with
  | .error e => .error e
  | .ok current_user =>
    if (allowed_roles.map UserRole.value).contains current_user.role = false then
      .error { status := 403,
               detail := String.append "Access denied. Required roles: "
                 (String.intercalate ", " (allowed_roles.map UserRole.value)) }
    else .ok current_user

end Permissions

namespace AuthService

/-- `String.startsWith`, computed over the character lists so that the
kernel can evaluate it. -/
def str_begins_with (pre s : String) : Bool :=
  pre.data.isPrefixOf s.data

/-- Whether passlib identifies a hash string as a bcrypt hash (the only
scheme configured: `CryptContext(schemes=["bcrypt"])`): bcrypt hashes begin
with a `$2*$` marker. -/
def identify_bcrypt (hashed : String) : Bool :=
  str_begins_with "$2b$" hashed || str_begins_with "$2a$" hashed ||
    str_begins_with "$2y$" hashed || str_begins_with "$2x$" hashed ||
    str_begins_with "$2$" hashed

/-- Deterministic model of a bcrypt hash of a plaintext (salting is
irrelevant to the claims proved here). -/
def bcrypt_hash (plaintext : String) : String :=
  String.append "$2b$12$model-salt$" plaintext

/-- Model of bcrypt verification of a plaintext against an identified hash. -/
def bcrypt_verify (plaintext hashed : String) : Bool :=
  bcrypt_hash plaintext == hashed

/-- Model of `passlib.context.CryptContext(schemes=["bcrypt"]).verify`,
faithful to the documented library behaviour: a hash string not identified
as belonging to a configured scheme raises `UnknownHashError`; an identified
hash yields the boolean comparison result. -/
def pwd_context_verify (plain hashed : String) : Except String Bool :=
  if identify_bcrypt hashed then .ok (bcrypt_verify plain hashed)
  else .error "UnknownHashError: hash could not be identified"

/-- `verify_password` in `app/services/auth_service.py`: a bare call to
`pwd_context.verify(plain_password, hashed_password)` with no exception
handling, so a library error propagates to the caller. -/
def verify_password (plain_password hashed_password : String) :
    Except String Bool :=
  pwd_context_verify plain_password hashed_password

end AuthService

/-! ## Concrete fixtures used by counterexamples and witnesses -/

/-- A registration request for a nurse account. -/
def uc0 : UserCreate :=
  { email := "a@x.com", first_name := "Ada", last_name := "Nguyen",
    role := .nurse, password := "Secret123!" }

/-- A stored active nurse account for `a@x.com`. -/
def docNurse : UserDoc :=
  { id := "a@x.com", email := "a@x.com",
    password_hash := PasswordService.hash_password "Secret123!",
    first_name := "Ada", last_name := "Nguyen", role := "nurse",
    created_at := 0, is_active := some true }

/-- The same stored account with the active flag cleared (soft-disabled). -/
def docInactive : UserDoc :=
  { docNurse with is_active := some false }

/-- The same stored account with no `is_active` field at all. -/
def docNoFlag : UserDoc :=
  { docNurse with is_active := none }

/-- A token for `docNurse` issued at time 5 with the default 30 minute
lifetime. -/
def tokNurse : JwtService.TokenString :=
  JwtService.create_access_token "server-secret" 5 30 "a@x.com" "a@x.com" "nurse"

/-- A well-signed payload used to exercise the token verifier. -/
def payload0 : JwtService.Payload :=
  { user_id := some "a@x.com", email := some "a@x.com",
    role := some "nurse", exp := 100 }

/-! ## Claims -/

/-- C1, counterexample: the three login failure modes do NOT all produce the
same externally observable outcome.  Against a store holding only the
soft-disabled account `a@x.com`, a login with the correct password for the
inactive account is rejected with 403 "User account is inactive", while a
login for an unknown email is rejected with 401 "Invalid email or password",
and the two outcomes differ. -/
theorem c1_login_uniform_failure_counterexample :
    AuthRouter.login [docInactive] "server-secret" 0 30 "a@x.com" "Secret123!" =
      .error { status := 403, detail := "User account is inactive" } ∧
    AuthRouter.login [docInactive] "server-secret" 0 30 "b@x.com" "Secret123!" =
      .error { status := 401, detail := "Invalid email or password" } ∧
    (HTTPError.mk 403 "User account is inactive" ≠
      HTTPError.mk 401 "Invalid email or password") :=
  ⟨by decide, by decide, by decide⟩

/-- C1, amended: a login attempt with an unknown email and a login attempt
with a wrong password produce the identical generic outcome
401 "Invalid email or password"; but a login attempt for a matching inactive
user with the correct password is rejected with the distinct outcome
403 "User account is inactive", so the inactive case is externally
distinguishable (only to a caller presenting the correct password, since the
password check precedes the active check). -/
theorem c1_login_failure_outcomes (db : List UserDoc) (secret : String)
    (now m : Nat) (email password : String) :
    (AuthRouter.find_by_email db email = none →
      AuthRouter.login db secret now m email password =
        .error { status := 401, detail := "Invalid email or password" }) ∧
    (∀ u, AuthRouter.find_by_email db email = some u →
      PasswordService.verify_password password u.password_hash = false →
      AuthRouter.login db secret now m email password =
        .error { status := 401, detail := "Invalid email or password" }) ∧
    (∀ u, AuthRouter.find_by_email db email = some u →
      PasswordService.verify_password password u.password_hash = true →
      u.is_active.getD true = false →
      AuthRouter.login db secret now m email password =
        .error { status := 403, detail := "User account is inactive" }) := by
  refine ⟨fun h => ?_, fun u hu hv => ?_, fun u hu hv hi => ?_⟩
  · simp [AuthRouter.login, h]
  · simp [AuthRouter.login, hu, hv]
  · simp [AuthRouter.login, hu, hv, hi]

/-- C1, witness for the amended theorem at concrete inputs. -/
theorem c1_login_failure_outcomes_witness :
    (AuthRouter.find_by_email [docInactive] "b@x.com" = none ∧
      AuthRouter.login [docInactive] "server-secret" 0 30 "b@x.com" "pw" =
        .error { status := 401, detail := "Invalid email or password" }) ∧
    (AuthRouter.find_by_email [docInactive] "a@x.com" = some docInactive ∧
      PasswordService.verify_password "wrong-pw" docInactive.password_hash = false ∧
      AuthRouter.login [docInactive] "server-secret" 0 30 "a@x.com" "wrong-pw" =
        .error { status := 401, detail := "Invalid email or password" }) ∧
    (PasswordService.verify_password "Secret123!" docInactive.password_hash = true ∧
      docInactive.is_active.getD true = false ∧
      AuthRouter.login [docInactive] "server-secret" 0 30 "a@x.com" "Secret123!" =
        .error { status := 403, detail := "User account is inactive" }) :=
  ⟨⟨by decide,
    (c1_login_failure_outcomes [docInactive] "server-secret" 0 30 "b@x.com" "pw").1
      (by decide)⟩,
   ⟨by decide, by decide,
    (c1_login_failure_outcomes [docInactive] "server-secret" 0 30 "a@x.com"
      "wrong-pw").2.1 docInactive (by decide) (by decide)⟩,
   ⟨by decide, by decide,
    (c1_login_failure_outcomes [docInactive] "server-secret" 0 30 "a@x.com"
      "Secret123!").2.2 docInactive (by decide) (by decide) (by decide)⟩⟩

/-- C2: once the current user is resolved, `require_role` allows exactly
when the user role equals the required role value and otherwise denies with
the 403 Forbidden outcome; `require_any_role` allows exactly when the user
role is among the values of the allowed set and otherwise denies with 403;
in particular a "nurse" user is denied by a gate requiring admin and allowed
by a gate requiring any of nurse or practitioner. -/
theorem c2_role_gate (db : List UserDoc) (secret : String) (now : Nat)
    (t : JwtService.TokenString) (required : UserRole)
    (allowed : List UserRole) (u : UserDoc)
    (h : AuthRouter.get_current_user db secret now t = .ok u) :
    (Permissions.require_role required db secret now t = .ok u ↔
      u.role = required.value) ∧
    (u.role ≠ required.value →
      Permissions.require_role required db secret now t =
        .error { status := 403,
                 detail := String.append "Access denied. Required role: "
                   required.value }) ∧
    (Permissions.require_any_role allowed db secret now t = .ok u ↔
      u.role ∈ allowed.map UserRole.value) ∧
    (u.role ∉ allowed.map UserRole.value →
      Permissions.require_any_role allowed db secret now t =
        .error { status := 403,
                 detail := String.append "Access denied. Required roles: "
                   (String.intercalate ", " (allowed.map UserRole.value)) }) ∧
    (u.role = "nurse" →
      Permissions.require_role .admin db secret now t =
        .error { status := 403, detail := "Access denied. Required role: admin" } ∧
      Permissions.require_any_role [.nurse, .practitioner] db secret now t =
        .ok u) := by
  have hr : ∀ r : UserRole,
      Permissions.require_role r db secret now t =
        if u.role ≠ r.value then
          .error { status := 403,
                   detail := String.append "Access denied. Required role: "
                     r.value }
        else .ok u := by
    intro r
    simp only [Permissions.require_role, h]
  have ha : ∀ l : List UserRole,
      Permissions.require_any_role l db secret now t =
        if (l.map UserRole.value).contains u.role = false then
          .error { status := 403,
                   detail := String.append "Access denied. Required roles: "
                     (String.intercalate ", " (l.map UserRole.value)) }
        else .ok u := by
    intro l
    simp only [Permissions.require_any_role, h]
  refine ⟨?_, ?_, ?_, ?_, ?_⟩
  · rw [hr required]
    by_cases hc : u.role = required.value <;> simp [hc]
  · intro hc
    rw [hr required]
    simp [hc]
  · rw [ha allowed]
    by_cases hc : u.role ∈ allowed.map UserRole.value <;>
      simp [hc, List.elem_iff]
  · intro hc
    rw [ha allowed]
    simp [List.elem_iff, hc]
  · intro hn
    refine ⟨?_, ?_⟩
    · rw [hr .admin]
      simp [hn, UserRole.value]
      rfl
    · rw [ha [.nurse, .practitioner]]
      simp [hn, UserRole.value]

/-- C2, witness: the nurse account with a fresh token is resolved, denied
against an admin-only gate, and allowed against a nurse-or-practitioner
gate. -/
theorem c2_role_gate_witness :
    AuthRouter.get_current_user [docNurse] "server-secret" 6 tokNurse =
      .ok docNurse ∧
    Permissions.require_role .admin [docNurse] "server-secret" 6 tokNurse =
      .error { status := 403, detail := "Access denied. Required role: admin" } ∧
    Permissions.require_any_role [.nurse, .practitioner] [docNurse]
      "server-secret" 6 tokNurse = .ok docNurse := by
  have h : AuthRouter.get_current_user [docNurse] "server-secret" 6 tokNurse =
      .ok docNurse := by decide
  have hgate := (c2_role_gate [docNurse] "server-secret" 6 tokNurse .admin
    [.nurse, .practitioner] docNurse h).2.2.2.2 (by decide)
  exact ⟨h, hgate.1, hgate.2⟩

/-- C3: a token whose carried signature differs from the signature computed
over its payload with the server secret is rejected by
`decode_access_token` with the 401 signature-verification failure, and
`get_token_data` never yields claims from it. -/
theorem c3_tampered_signature_rejected (secret : String) (now : Nat)
    (p : JwtService.Payload) (s : Nat)
    (h : s ≠ JwtService.signature secret p) :
    JwtService.decode_access_token secret now (.signed p s) =
      .error { status := 401,
               detail := "Could not validate credentials: Signature verification failed." } ∧
    (∀ td, JwtService.get_token_data secret now (.signed p s) ≠ .ok td) := by
  have hd : JwtService.decode_access_token secret now (.signed p s) =
      .error { status := 401,
               detail := "Could not validate credentials: Signature verification failed." } := by
    simp [JwtService.decode_access_token, JwtService.jose_decode, h,
      JwtService.JWTFailure.message]
    rfl
  refine ⟨hd, fun td => ?_⟩
  simp [JwtService.get_token_data, hd]

/-- C3, witness: a concrete well-formed payload whose signature value is
off by one is rejected. -/
theorem c3_tampered_signature_rejected_witness :
    JwtService.signature "server-secret" payload0 + 1 ≠
      JwtService.signature "server-secret" payload0 ∧
    JwtService.decode_access_token "server-secret" 0
      (.signed payload0 (JwtService.signature "server-secret" payload0 + 1)) =
      .error { status := 401,
               detail := "Could not validate credentials: Signature verification failed." } :=
  ⟨by omega,
   (c3_tampered_signature_rejected "server-secret" 0 payload0
     (JwtService.signature "server-secret" payload0 + 1) (by omega)).1⟩

/-- C4: `get_current_user` authenticates only when the token data is
extracted successfully AND the referenced user, looked up live by id in the
store at request time, is still marked active; and whenever the live lookup
finds the referenced user soft-disabled, the request is rejected with
403 "User account is inactive" even though the token itself verified. -/
theorem c4_live_active_check (db : List UserDoc) (secret : String)
    (now : Nat) (t : JwtService.TokenString) :
    (∀ u, AuthRouter.get_current_user db secret now t = .ok u →
      ∃ td, JwtService.get_token_data secret now t = .ok td ∧
        AuthRouter.find_by_id db td.user_id = some u ∧
        u.is_active.getD true = true) ∧
    (∀ td u, JwtService.get_token_data secret now t = .ok td →
      AuthRouter.find_by_id db td.user_id = some u →
      u.is_active.getD true = false →
      AuthRouter.get_current_user db secret now t =
        .error { status := 403, detail := "User account is inactive" }) := by
  constructor
  · intro u hu
    cases htd : JwtService.get_token_data secret now t with
    | error e => simp [AuthRouter.get_current_user, htd] at hu
    | ok td =>
      cases hf : AuthRouter.find_by_id db td.user_id with
      | none => simp [AuthRouter.get_current_user, htd, hf] at hu
      | some v =>
        cases hb : v.is_active.getD true with
        | false => simp [AuthRouter.get_current_user, htd, hf, hb] at hu
        | true =>
          simp [AuthRouter.get_current_user, htd, hf, hb] at hu
          subst hu
          exact ⟨td, rfl, hf, hb⟩
  · intro td u htd hf hi
    simp [AuthRouter.get_current_user, htd, hf, hi]

/-- C4, witness: the nurse token is still valid at time 6, but after the
account is soft-disabled the live lookup rejects the request with 403. -/
theorem c4_live_active_check_witness :
    JwtService.get_token_data "server-secret" 6 tokNurse =
      .ok { user_id := "a@x.com", email := "a@x.com", role := "nurse" } ∧
    AuthRouter.find_by_id [docInactive] "a@x.com" = some docInactive ∧
    docInactive.is_active.getD true = false ∧
    AuthRouter.get_current_user [docInactive] "server-secret" 6 tokNurse =
      .error { status := 403, detail := "User account is inactive" } :=
  ⟨by decide, by decide, by decide,
   (c4_live_active_check [docInactive] "server-secret" 6 tokNurse).2
     { user_id := "a@x.com", email := "a@x.com", role := "nurse" }
     docInactive (by decide) (by decide) (by decide)⟩

/-- C5, counterexample: the second registration of the same email is
rejected with HTTP status 400 ("Email already registered"), not 409 as the
claim states. -/
theorem c5_duplicate_status_counterexample :
    AuthRouter.register [] 0 uc0 = .ok (docNurse.profile, [docNurse]) ∧
    AuthRouter.register [docNurse] 1 uc0 =
      .error { status := 400, detail := "Email already registered" } ∧
    (AuthRouter.register [docNurse] 1 uc0 ≠
      .error { status := 409, detail := "Email already registered" }) :=
  ⟨by decide, by decide, by decide⟩

/-- C5, amended: registering the same email twice succeeds on the first
attempt and fails on the second attempt with the duplicate-identifier error,
surfaced to the caller as HTTP status 400 (Bad Request), not 409. -/
theorem c5_duplicate_registration (db : List UserDoc) (now1 now2 : Nat)
    (u1 u2 : UserCreate)
    (hfresh : AuthRouter.find_by_email db u1.email = none)
    (hsame : u2.email = u1.email) :
    AuthRouter.register db now1 u1 =
      .ok ((AuthRouter.new_user_doc now1 u1).profile,
        db ++ [AuthRouter.new_user_doc now1 u1]) ∧
    AuthRouter.register (db ++ [AuthRouter.new_user_doc now1 u1]) now2 u2 =
      .error { status := 400, detail := "Email already registered" } := by
  constructor
  · simp [AuthRouter.register, hfresh]
  · have hfind : AuthRouter.find_by_email
        (db ++ [AuthRouter.new_user_doc now1 u1]) u2.email =
        some (AuthRouter.new_user_doc now1 u1) := by
      unfold AuthRouter.find_by_email at hfresh ⊢
      rw [hsame, List.find?_append, hfresh]
      simp [AuthRouter.new_user_doc]
    simp [AuthRouter.register, hfind]

/-- C5, witness for the amended theorem at concrete inputs. -/
theorem c5_duplicate_registration_witness :
    AuthRouter.find_by_email [] uc0.email = none ∧
    uc0.email = uc0.email ∧
    AuthRouter.register [] 0 uc0 =
      .ok ((AuthRouter.new_user_doc 0 uc0).profile,
        [AuthRouter.new_user_doc 0 uc0]) ∧
    AuthRouter.register [AuthRouter.new_user_doc 0 uc0] 1 uc0 =
      .error { status := 400, detail := "Email already registered" } :=
  ⟨by decide, rfl,
   by simpa using (c5_duplicate_registration [] 0 1 uc0 uc0 (by decide) rfl).1,
   by simpa using (c5_duplicate_registration [] 0 1 uc0 uc0 (by decide) rfl).2⟩

/-- C6, counterexample: `verify_password` on a malformed stored hash does
not return a boolean at all; the unhandled passlib `UnknownHashError`
propagates to the caller. -/
theorem c6_verify_password_throws_counterexample :
    AuthService.verify_password "Secret123!" "not-a-bcrypt-hash" =
      .error "UnknownHashError: hash could not be identified" ∧
    (AuthService.verify_password "Secret123!" "not-a-bcrypt-hash").isOk = false :=
  ⟨by decide, by decide⟩

/-- C6, amended: for a stored hash that passlib identifies as bcrypt,
`verify_password` totally returns a boolean — false exactly on a password
mismatch — but for a malformed (unidentifiable) stored hash it does not
return false: the `UnknownHashError` raised by passlib propagates, since
the wrapper has no exception handling. -/
theorem c6_verify_password_totality (plain hashed : String) :
    (AuthService.identify_bcrypt hashed = true →
      AuthService.verify_password plain hashed =
        .ok (AuthService.bcrypt_verify plain hashed)) ∧
    (AuthService.identify_bcrypt hashed = false →
      AuthService.verify_password plain hashed =
        .error "UnknownHashError: hash could not be identified") := by
  constructor
  · intro h
    simp [AuthService.verify_password, AuthService.pwd_context_verify, h]
  · intro h
    simp [AuthService.verify_password, AuthService.pwd_context_verify, h]

/-- C6, witness for the amended theorem: both arms at concrete inputs. -/
theorem c6_verify_password_totality_witness :
    AuthService.identify_bcrypt (AuthService.bcrypt_hash "Secret123!") = true ∧
    AuthService.verify_password "Secret123!" (AuthService.bcrypt_hash "Secret123!") =
      .ok true ∧
    AuthService.identify_bcrypt "plainly-wrong" = false ∧
    AuthService.verify_password "pw" "plainly-wrong" =
      .error "UnknownHashError: hash could not be identified" :=
  ⟨by decide,
   by
     have h := (c6_verify_password_totality "Secret123!"
       (AuthService.bcrypt_hash "Secret123!")).1 (by decide)
     simpa [show AuthService.bcrypt_verify "Secret123!"
       (AuthService.bcrypt_hash "Secret123!") = true by decide] using h,
   by decide,
   (c6_verify_password_totality "pw" "plainly-wrong").2 (by decide)⟩

/-- C7: a well-signed token verified after its expiry (issuance plus ttl)
is rejected with the expiry reason, and the three rejection reasons —
expired, signature invalid/tampered, malformed — are pairwise distinct
detail messages (all carried on a 401). -/
theorem c7_expired_distinct_reasons (secret : String) (now1 m : Nat)
    (user_id email role : String) (now2 : Nat)
    (h : now1 + m * 60 < now2) :
    JwtService.decode_access_token secret now2
      (JwtService.create_access_token secret now1 m user_id email role) =
      .error { status := 401,
               detail := "Could not validate credentials: Signature has expired." } ∧
    (∀ p s, s ≠ JwtService.signature secret p →
      JwtService.decode_access_token secret now2 (.signed p s) =
        .error { status := 401,
                 detail := "Could not validate credentials: Signature verification failed." }) ∧
    (∀ raw, JwtService.decode_access_token secret now2 (.malformed raw) =
      .error { status := 401,
               detail := "Could not validate credentials: Not enough segments" }) ∧
    ("Could not validate credentials: Signature has expired." ≠
      "Could not validate credentials: Signature verification failed.") ∧
    ("Could not validate credentials: Signature has expired." ≠
      "Could not validate credentials: Not enough segments") ∧
    ("Could not validate credentials: Signature verification failed." ≠
      "Could not validate credentials: Not enough segments") := by
  refine ⟨?_, fun p s hs => ?_, fun raw => ?_, by decide, by decide, by decide⟩
  · simp [JwtService.decode_access_token, JwtService.create_access_token,
      JwtService.jose_decode, h, JwtService.JWTFailure.message]
    rfl
  · simp [JwtService.decode_access_token, JwtService.jose_decode, hs,
      JwtService.JWTFailure.message]
    rfl
  · simp [JwtService.decode_access_token, JwtService.jose_decode,
      JwtService.JWTFailure.message]
    rfl

/-- C7, witness: the nurse token issued at time 5 with a 30 minute lifetime
is rejected as expired at time 2000. -/
theorem c7_expired_distinct_reasons_witness :
    5 + 30 * 60 < 2000 ∧
    JwtService.decode_access_token "server-secret" 2000 tokNurse =
      .error { status := 401,
               detail := "Could not validate credentials: Signature has expired." } :=
  ⟨by decide,
   (c7_expired_distinct_reasons "server-secret" 5 30 "a@x.com" "a@x.com"
     "nurse" 2000 (by decide)).1⟩

/-- Inserting a freshly registered document at the end of a store that has
no user with that email makes the email lookup find exactly that document. -/
theorem find_by_email_append_new (db : List UserDoc) (now : Nat)
    (uc : UserCreate)
    (h : AuthRouter.find_by_email db uc.email = none) :
    AuthRouter.find_by_email (db ++ [AuthRouter.new_user_doc now uc])
      uc.email = some (AuthRouter.new_user_doc now uc) := by
  unfold AuthRouter.find_by_email at h ⊢
  rw [List.find?_append, h]
  simp [AuthRouter.new_user_doc]

/-- Inserting a freshly registered document at the end of a store that has
no user with id equal to that email makes the id lookup find exactly that
document. -/
theorem find_by_id_append_new (db : List UserDoc) (now : Nat)
    (uc : UserCreate)
    (h : AuthRouter.find_by_id db uc.email = none) :
    AuthRouter.find_by_id (db ++ [AuthRouter.new_user_doc now uc])
      uc.email = some (AuthRouter.new_user_doc now uc) := by
  unfold AuthRouter.find_by_id at h ⊢
  rw [List.find?_append, h]
  simp [AuthRouter.new_user_doc]

/-- C8: registering a fresh (identifier, password) pair, logging in with
that pair, and then asking the `/me` endpoint with the returned token
yields a profile carrying exactly the email and the role value supplied at
registration. -/
theorem c8_register_login_me_roundtrip (db : List UserDoc) (secret : String)
    (now1 now2 now3 m : Nat) (uc : UserCreate)
    (h1 : AuthRouter.find_by_email db uc.email = none)
    (h2 : AuthRouter.find_by_id db uc.email = none)
    (h3 : ¬ now2 + m * 60 < now3) :
    AuthRouter.register db now1 uc =
      .ok ((AuthRouter.new_user_doc now1 uc).profile,
        db ++ [AuthRouter.new_user_doc now1 uc]) ∧
    AuthRouter.login (db ++ [AuthRouter.new_user_doc now1 uc]) secret now2 m
      uc.email uc.password =
      .ok { access_token :=
              JwtService.create_access_token secret now2 m uc.email uc.email
                uc.role.value,
            token_type := "bearer",
            user := { id := uc.email, email := uc.email,
                      first_name := uc.first_name, last_name := uc.last_name,
                      role := uc.role.value, created_at := now1,
                      is_active := true } } ∧
    AuthRouter.get_current_user_profile
      (db ++ [AuthRouter.new_user_doc now1 uc]) secret now3
      (JwtService.create_access_token secret now2 m uc.email uc.email
        uc.role.value) =
      .ok (AuthRouter.new_user_doc now1 uc).profile ∧
    (AuthRouter.new_user_doc now1 uc).profile.email = uc.email ∧
    (AuthRouter.new_user_doc now1 uc).profile.role = uc.role.value := by
  have hfe := find_by_email_append_new db now1 uc h1
  have hfi := find_by_id_append_new db now1 uc h2
  have hv : PasswordService.verify_password uc.password
      (AuthRouter.new_user_doc now1 uc).password_hash = true := by
    simp [PasswordService.verify_password, AuthRouter.new_user_doc]
  have htd : JwtService.get_token_data secret now3
      (JwtService.create_access_token secret now2 m uc.email uc.email
        uc.role.value) =
      .ok { user_id := uc.email, email := uc.email, role := uc.role.value } := by
    simp [JwtService.get_token_data, JwtService.decode_access_token,
      JwtService.create_access_token, JwtService.jose_decode, h3]
  refine ⟨?_, ?_, ?_, ?_, ?_⟩
  · simp [AuthRouter.register, h1]
  · simp only [AuthRouter.login, hfe, hv]
    simp [AuthRouter.new_user_doc]
  · simp only [AuthRouter.get_current_user_profile,
      AuthRouter.get_current_user, htd, hfi]
    simp [AuthRouter.new_user_doc, UserDoc.profile]
  · simp [AuthRouter.new_user_doc, UserDoc.profile]
  · simp [AuthRouter.new_user_doc, UserDoc.profile]

/-- C8, witness: the nurse registration at concrete inputs. -/
theorem c8_register_login_me_roundtrip_witness :
    AuthRouter.find_by_email [] uc0.email = none ∧
    AuthRouter.find_by_id [] uc0.email = none ∧
    ¬ 5 + 30 * 60 < 6 ∧
    AuthRouter.register [] 0 uc0 =
      .ok ((AuthRouter.new_user_doc 0 uc0).profile,
        [AuthRouter.new_user_doc 0 uc0]) ∧
    AuthRouter.get_current_user_profile [AuthRouter.new_user_doc 0 uc0]
      "server-secret" 6
      (JwtService.create_access_token "server-secret" 5 30 uc0.email uc0.email
        uc0.role.value) =
      .ok (AuthRouter.new_user_doc 0 uc0).profile ∧
    (AuthRouter.new_user_doc 0 uc0).profile.email = uc0.email ∧
    (AuthRouter.new_user_doc 0 uc0).profile.role = uc0.role.value := by
  have h := c8_register_login_me_roundtrip [] "server-secret" 0 5 6 30 uc0
    (by decide) (by decide) (by decide)
  have hreg := h.1
  have hme := h.2.2.1
  have hmail := h.2.2.2.1
  have hrole := h.2.2.2.2
  exact ⟨by decide, by decide, by decide,
    by simpa using hreg, by simpa using hme, hmail, hrole⟩

/-- C9: a stored user document with no `is_active` field at all is treated
as active by both `login` (reading the flag with default True, a token is
issued) and `get_current_user` (the user is returned, not rejected as
inactive). -/
theorem c9_missing_active_flag_defaults_active (db : List UserDoc)
    (secret : String) (now m : Nat) (u : UserDoc)
    (hu : u.is_active = none) :
    (∀ email password, AuthRouter.find_by_email db email = some u →
      PasswordService.verify_password password u.password_hash = true →
      AuthRouter.login db secret now m email password =
        .ok { access_token :=
                JwtService.create_access_token secret now m u.id u.email
                  u.role,
              token_type := "bearer",
              user := { id := u.id, email := u.email,
                        first_name := u.first_name, last_name := u.last_name,
                        role := u.role, created_at := u.created_at,
                        is_active := true } }) ∧
    (∀ t td, JwtService.get_token_data secret now t = .ok td →
      AuthRouter.find_by_id db td.user_id = some u →
      AuthRouter.get_current_user db secret now t = .ok u) := by
  constructor
  · intro email password hf hv
    simp only [AuthRouter.login, hf, hv]
    simp [hu]
  · intro t td htd hf
    simp only [AuthRouter.get_current_user, htd, hf]
    simp [hu]

/-- C9, witness: the flagless nurse document logs in and is returned by
`get_current_user`. -/
theorem c9_missing_active_flag_defaults_active_witness :
    docNoFlag.is_active = none ∧
    AuthRouter.find_by_email [docNoFlag] "a@x.com" = some docNoFlag ∧
    PasswordService.verify_password "Secret123!" docNoFlag.password_hash = true ∧
    AuthRouter.login [docNoFlag] "server-secret" 5 30 "a@x.com" "Secret123!" =
      .ok { access_token := tokNurse,
            token_type := "bearer",
            user := { id := "a@x.com", email := "a@x.com",
                      first_name := "Ada", last_name := "Nguyen",
                      role := "nurse", created_at := 0,
                      is_active := true } } ∧
    JwtService.get_token_data "server-secret" 6 tokNurse =
      .ok { user_id := "a@x.com", email := "a@x.com", role := "nurse" } ∧
    AuthRouter.find_by_id [docNoFlag] "a@x.com" = some docNoFlag ∧
    AuthRouter.get_current_user [docNoFlag] "server-secret" 6 tokNurse =
      .ok docNoFlag := by
  have h := c9_missing_active_flag_defaults_active [docNoFlag]
    "server-secret" 5 30 docNoFlag rfl
  have h2 := c9_missing_active_flag_defaults_active [docNoFlag]
    "server-secret" 6 30 docNoFlag rfl
  refine ⟨rfl, by decide, by decide, ?_, by decide, by decide, ?_⟩
  · have := h.1 "a@x.com" "Secret123!" (by decide) (by decide)
    simpa [docNoFlag, docNurse, tokNurse] using this
  · exact h2.2 tokNurse
      { user_id := "a@x.com", email := "a@x.com", role := "nurse" }
      (by decide) (by decide)

/-- C10: a token that verifies (correct signature, not expired) but whose
payload lacks any of the `user_id`, `email` or `role` claims is rejected by
`get_token_data` with 401 "Invalid token payload", and `get_current_user`
propagates that rejection instead of proceeding with a partial identity. -/
theorem c10_incomplete_payload_rejected (secret : String) (now : Nat)
    (p : JwtService.Payload)
    (hmiss : p.user_id = none ∨ p.email = none ∨ p.role = none)
    (hexp : ¬ p.exp < now) :
    JwtService.get_token_data secret now
      (.signed p (JwtService.signature secret p)) =
      .error { status := 401, detail := "Invalid token payload" } ∧
    (∀ db, AuthRouter.get_current_user db secret now
      (.signed p (JwtService.signature secret p)) =
      .error { status := 401, detail := "Invalid token payload" }) := by
  have hdec : JwtService.decode_access_token secret now
      (.signed p (JwtService.signature secret p)) = .ok p := by
    simp [JwtService.decode_access_token, JwtService.jose_decode, hexp]
  have hgtd : JwtService.get_token_data secret now
      (.signed p (JwtService.signature secret p)) =
      .error { status := 401, detail := "Invalid token payload" } := by
    unfold JwtService.get_token_data
    rw [hdec]
    cases hu : p.user_id <;> cases he : p.email <;> cases hr : p.role <;>
      simp_all
  exact ⟨hgtd, fun db => by simp [AuthRouter.get_current_user, hgtd]⟩

/-- C10, witness: a well-signed, unexpired payload missing its `role` claim
is rejected with "Invalid token payload". -/
theorem c10_incomplete_payload_rejected_witness :
    (JwtService.Payload.mk (some "a@x.com") (some "a@x.com") none 100).role =
      none ∧
    ¬ (JwtService.Payload.mk (some "a@x.com") (some "a@x.com") none 100).exp
      < 6 ∧
    JwtService.get_token_data "server-secret" 6
      (.signed (JwtService.Payload.mk (some "a@x.com") (some "a@x.com") none 100)
        (JwtService.signature "server-secret"
          (JwtService.Payload.mk (some "a@x.com") (some "a@x.com") none 100))) =
      .error { status := 401, detail := "Invalid token payload" } :=
  ⟨rfl, by decide,
   (c10_incomplete_payload_rejected "server-secret" 6
     (JwtService.Payload.mk (some "a@x.com") (some "a@x.com") none 100)
     (Or.inr (Or.inr rfl)) (by decide)).1⟩
